import Mathlib

/-!
Verification of the CyMySQL client core (`cymysql/connections.py`,
`cymysql/result.py`) against its natural-language specification.

Byte strings are modelled as `List Nat` (each element a byte value).
`hashlib.sha1` / `hashlib.sha256` are embedded as executable Lean
implementations of FIPS 180-4 SHA-1 and SHA-256 over byte lists.
-/

/-- Truncation to an unsigned 32-bit value (`% 2^32`). -/
def u32 (n : Nat) : Nat := n % 4294967296

/-- 32-bit left rotation. -/
def rotl32 (r x : Nat) : Nat := u32 (((u32 x) <<< r) ||| ((u32 x) >>> (32 - r)))

/-- 32-bit right rotation. -/
def rotr32 (r x : Nat) : Nat := u32 (((u32 x) >>> r) ||| ((u32 x) <<< (32 - r)))

/-- A 32-bit word rendered as its four bytes, most significant first. -/
def be32 (n : Nat) : List Nat := [n >>> 24 % 256, n >>> 16 % 256, n >>> 8 % 256, n % 256]

/-- A 64-bit value rendered as its eight bytes, most significant first. -/
def be64 (n : Nat) : List Nat := be32 (n >>> 32) ++ be32 n

/-- Big-endian 32-bit word from the first four bytes of a list. -/
def beWord (bs : List Nat) : Nat :=
  bs.getD 0 0 * 16777216 + bs.getD 1 0 * 65536 + bs.getD 2 0 * 256 + bs.getD 3 0

/-- Merkle–Damgård padding shared by SHA-1 and SHA-256: append `0x80`, zero
bytes up to 56 mod 64, then the 64-bit big-endian bit length. -/
def shaPad (msg : List Nat) : List Nat :=
  let k := (119 - msg.length % 64) % 64
  msg ++ 0x80 :: List.replicate k 0 ++ be64 (8 * msg.length)

/-- Split a byte list into 64-byte blocks. -/
def chunks64 : List Nat → List (List Nat)
  | [] => []
  | b :: rest => (b :: rest).take 64 :: chunks64 ((b :: rest).drop 64)
termination_by l => l.length
decreasing_by
  simp only [List.length_drop, List.length_cons]
  omega

/-- SHA-1 round constants (decimal for `0x5A827999`, `0x6ED9EBA1`,
`0x8F1BBCDC`, `0xCA62C1D6`). -/
def sha1K (t : Nat) : Nat :=
  if t < 20 then 1518500249
  else if t < 40 then 1859775393
  else if t < 60 then 2400959708
  else 3395469782

/-- SHA-1 round functions. -/
def sha1F (t b c d : Nat) : Nat :=
  if t < 20 then (b &&& c) ||| ((u32 (b ^^^ 0xFFFFFFFF)) &&& d)
  else if t < 40 then b ^^^ c ^^^ d
  else if t < 60 then (b &&& c) ||| (b &&& d) ||| (c &&& d)
  else b ^^^ c ^^^ d

/-- SHA-1 message schedule: 80 32-bit words from a 64-byte block. -/
def sha1W (block : List Nat) : List Nat :=
  let ws0 := (List.range 16).map (fun i => beWord ((block.drop (4 * i)).take 4))
  (List.range 64).foldl
    (fun ws _ =>
      let n := ws.length
      ws ++ [rotl32 1 ((ws.getD (n - 3) 0) ^^^ (ws.getD (n - 8) 0) ^^^
                       (ws.getD (n - 14) 0) ^^^ (ws.getD (n - 16) 0))])
    ws0

/-- SHA-1 chaining state. -/
structure SHA1State where
  h0 : Nat
  h1 : Nat
  h2 : Nat
  h3 : Nat
  h4 : Nat

/-- SHA-1 initial state (decimal for `0x67452301 ... 0xC3D2E1F0`). -/
def sha1Init : SHA1State :=
  ⟨1732584193, 4023233417, 2562383102, 271733878, 3285377520⟩

/-- SHA-1 compression of one 64-byte block. -/
def sha1Block (st : SHA1State) (block : List Nat) : SHA1State :=
  let w := sha1W block
  let abcde := (List.range 80).foldl
    (fun (s : Nat × Nat × Nat × Nat × Nat) t =>
      let (a, b, c, d, e) := s
      (u32 (rotl32 5 a + sha1F t b c d + e + sha1K t + w.getD t 0),
       a, rotl32 30 b, c, d))
    (st.h0, st.h1, st.h2, st.h3, st.h4)
  ⟨u32 (st.h0 + abcde.1), u32 (st.h1 + abcde.2.1), u32 (st.h2 + abcde.2.2.1),
   u32 (st.h3 + abcde.2.2.2.1), u32 (st.h4 + abcde.2.2.2.2)⟩

/-- SHA-1 digest (20 bytes) of a byte list; embeds `hashlib.sha1(...).digest()`. -/
def sha1 (msg : List Nat) : List Nat :=
  let st := (chunks64 (shaPad msg)).foldl sha1Block sha1Init
  be32 st.h0 ++ be32 st.h1 ++ be32 st.h2 ++ be32 st.h3 ++ be32 st.h4

/-- The 64 SHA-256 round constants, written in decimal
(`0x428a2f98, 0x71374491, ...` per FIPS 180-4 section 4.2.2). -/
def sha256K : List Nat :=
  [1116352408, 1899447441, 3049323471, 3921009573, 961987163,
   1508970993, 2453635748, 2870763221, 3624381080, 310598401,
   607225278, 1426881987, 1925078388, 2162078206, 2614888103,
   3248222580, 3835390401, 4022224774, 264347078, 604807628,
   770255983, 1249150122, 1555081692, 1996064986, 2554220882,
   2821834349, 2952996808, 3210313671, 3336571891, 3584528711,
   113926993, 338241895, 666307205, 773529912, 1294757372,
   1396182291, 1695183700, 1986661051, 2177026350, 2456956037,
   2730485921, 2820302411, 3259730800, 3345764771, 3516065817,
   3600352804, 4094571909, 275423344, 430227734, 506948616,
   659060556, 883997877, 958139571, 1322822218, 1537002063,
   1747873779, 1955562222, 2024104815, 2227730452, 2361852424,
   2428436474, 2756734187, 3204031479, 3329325298]

/-- The SHA-256 function named big sigma 0 in FIPS 180-4. -/
def bigSigma0 (x : Nat) : Nat := rotr32 2 x ^^^ rotr32 13 x ^^^ rotr32 22 x

/-- The SHA-256 function named big sigma 1 in FIPS 180-4. -/
def bigSigma1 (x : Nat) : Nat := rotr32 6 x ^^^ rotr32 11 x ^^^ rotr32 25 x

/-- The SHA-256 function named small sigma 0 in FIPS 180-4. -/
def smallSigma0 (x : Nat) : Nat := rotr32 7 x ^^^ rotr32 18 x ^^^ ((u32 x) >>> 3)

/-- The SHA-256 function named small sigma 1 in FIPS 180-4. -/
def smallSigma1 (x : Nat) : Nat := rotr32 17 x ^^^ rotr32 19 x ^^^ ((u32 x) >>> 10)

/-- SHA-256 choice function. -/
def chFn (e f g : Nat) : Nat := (e &&& f) ^^^ ((u32 (e ^^^ 0xFFFFFFFF)) &&& g)

/-- SHA-256 majority function. -/
def majFn (a b c : Nat) : Nat := (a &&& b) ^^^ (a &&& c) ^^^ (b &&& c)

/-- SHA-256 message schedule: 64 32-bit words from a 64-byte block. -/
def sha256W (block : List Nat) : List Nat :=
  let ws0 := (List.range 16).map (fun i => beWord ((block.drop (4 * i)).take 4))
  (List.range 48).foldl
    (fun ws _ =>
      let n := ws.length
      ws ++ [u32 (smallSigma1 (ws.getD (n - 2) 0) + ws.getD (n - 7) 0 +
                  smallSigma0 (ws.getD (n - 15) 0) + ws.getD (n - 16) 0)])
    ws0

/-- SHA-256 chaining state. -/
structure SHA256State where
  h0 : Nat
  h1 : Nat
  h2 : Nat
  h3 : Nat
  h4 : Nat
  h5 : Nat
  h6 : Nat
  h7 : Nat

/-- SHA-256 initial state (decimal for `0x6a09e667 ... 0x5be0cd19`). -/
def sha256Init : SHA256State :=
  ⟨1779033703, 3144134277, 1013904242, 2773480762,
   1359893119, 2600822924, 528734635, 1541459225⟩

/-- SHA-256 compression of one 64-byte block. -/
def sha256Block (st : SHA256State) (block : List Nat) : SHA256State :=
  let w := sha256W block
  let r := (List.range 64).foldl
    (fun (s : Nat × Nat × Nat × Nat × Nat × Nat × Nat × Nat) t =>
      let (a, b, c, d, e, f, g, h) := s
      let t1 := u32 (h + bigSigma1 e + chFn e f g + sha256K.getD t 0 + w.getD t 0)
      let t2 := u32 (bigSigma0 a + majFn a b c)
      (u32 (t1 + t2), a, b, c, u32 (d + t1), e, f, g))
    (st.h0, st.h1, st.h2, st.h3, st.h4, st.h5, st.h6, st.h7)
  ⟨u32 (st.h0 + r.1), u32 (st.h1 + r.2.1), u32 (st.h2 + r.2.2.1),
   u32 (st.h3 + r.2.2.2.1), u32 (st.h4 + r.2.2.2.2.1), u32 (st.h5 + r.2.2.2.2.2.1),
   u32 (st.h6 + r.2.2.2.2.2.2.1), u32 (st.h7 + r.2.2.2.2.2.2.2)⟩

/-- SHA-256 digest (32 bytes) of a byte list; embeds `hashlib.sha256(...).digest()`. -/
def sha256 (msg : List Nat) : List Nat :=
  let st := (chunks64 (shaPad msg)).foldl sha256Block sha256Init
  be32 st.h0 ++ be32 st.h1 ++ be32 st.h2 ++ be32 st.h3 ++
  be32 st.h4 ++ be32 st.h5 ++ be32 st.h6 ++ be32 st.h7

/-! ## Authentication scrambles (`cymysql/connections.py`) -/

/-- `SCRAMBLE_LENGTH = 20` from `connections.py`. -/
def SCRAMBLE_LENGTH : Nat := 20

/-- `_xor(data1, data2)` from `connections.py`: for each index `i` of `data1`,
XOR `data1[i]` with `data2[i % len(data2)]` and append to the result. -/
def _xor (data1 data2 : List Nat) : List Nat :=
  (List.range data1.length).map
    (fun i => (data1.getD i 0) ^^^ (data2.getD (i % data2.length) 0))

/-- `_mysql_native_password_scramble(password, message)` from `connections.py`.
The password is `none` for Python `None`, otherwise `some` of its bytes. -/
def _mysql_native_password_scramble (password : Option (List Nat))
    (message : List Nat) : List Nat :=
  match password with
  | none => []
  | some p =>
    if p.length = 0 then []
    else
      let message2 := sha1 p
      let stage2 := sha1 message2
      let message1 := sha1 (message.take SCRAMBLE_LENGTH ++ stage2)
      _xor message1 message2

/-- `_caching_sha2_password_scramble(password, nonce)` from `connections.py`. -/
def _caching_sha2_password_scramble (password : Option (List Nat))
    (nonce : List Nat) : List Nat :=
  match password with
  | none => []
  | some p =>
    if p.length = 0 then []
    else
      let message1 := sha256 p
      let message2 := sha256 (sha256 message1 ++ nonce.take SCRAMBLE_LENGTH)
      _xor message1 message2

/-! ## Connection state, errors and commands (`cymysql/connections.py`)

`cymysql/socketwrapper.py` and `cymysql/err.py` are not part of the sources
under verification; following the specification, a transport write on a
broken socket raises `OperationalError` (spec section 7: transport-level
failures are `OperationalError`), and the DB-API exception classes other
than `ValueError` / `NotImplementedError` / `AttributeError` (Python
builtins) are subclasses of `Error`. -/

/-- The exception classes the modelled code paths can raise.
`wrappedError` stands for the `Error(errorclass, errorvalue)` that
`Connection.errorhandler` raises when the caught class is not a
subclass of the DB-API `Error`. -/
inductive PyErr where
  | interfaceError
  | operationalError
  | valueError
  | notImplementedError
  | notSupportedError
  | attributeError
  | assertionError
  | blockedRead
  | serverError
  | wrappedError
deriving DecidableEq, Repr

/-- Modelled from the spec: which exception classes are subclasses of the
DB-API `Error` base class (`cymysql/err.py` is outside the verified sources;
spec section 7 lists the taxonomy — the DB-API classes are under `Error`,
while `ValueError`, `NotImplementedError`, `AttributeError` and
`AssertionError` are Python builtins outside it). -/
def isSubclassOfDbError : PyErr → Bool
  | .interfaceError => true
  | .operationalError => true
  | .notSupportedError => true
  | .serverError => true
  | .wrappedError => true
  | _ => false

/-- `Connection.errorhandler(None, exc, value)` as invoked from the command
methods: with no cursor it records the error on the connection, then
re-raises `value` itself when `exc` is a DB-API `Error` subclass, and
otherwise raises `Error(exc, value)`. -/
def errorhandler (e : PyErr) : PyErr :=
  if isSubclassOfDbError e then e else .wrappedError

/-- The transport socket, as far as the claims need it: whether writes on it
fail (`broken`), and whether the server handshake + authentication
(`_get_server_information` / `_request_authentication`, run by
`_initialize`) have been performed on this socket (`handshaken`). -/
structure Sock where
  broken : Bool
  handshaken : Bool
deriving DecidableEq, Repr

/-- The connection state the claims need: `self.socket` (`None` ⇔ `none`). -/
structure Conn where
  socket : Option Sock
deriving DecidableEq, Repr

/-- Modelled from the spec: `SocketWrapper.send_packet`
(`cymysql/socketwrapper.py` is outside the verified sources) writes bytes to
the transport and raises `OperationalError` on transport failure
(spec section 7: "OperationalError — transport-level failures"). -/
def send_packet (s : Sock) : Except PyErr Unit :=
  if s.broken then .error .operationalError else .ok ()

/-- `struct.pack('<i', n)` for `0 ≤ n < 2^31`: 4 bytes little-endian. -/
def packInt32LE (n : Nat) : List Nat :=
  [n % 256, n >>> 8 % 256, n >>> 16 % 256, n >>> 24 % 256]

/-- `Connection._execute_command(command, sql)` from `connections.py`
(with `sql` already a byte string): raise `InterfaceError` via the error
handler if there is no socket; raise `ValueError` if `len(sql) + 1` exceeds
`0xffffff`; otherwise send `pack('<i', len(sql)+1) + chr(command) + sql`.
On success the value is the byte string handed to `send_packet`. -/
def _execute_command (socket : Option Sock) (command : Nat) (sql : List Nat) :
    Except PyErr (List Nat) :=
  match socket with
  | none => .error (errorhandler .interfaceError)
  | some s =>
    if sql.length + 1 > 0xffffff then .error .valueError
    else
      match send_packet s with
      | .error e => .error e
      | .ok _ => .ok (packInt32LE (sql.length + 1) ++ [command % 256] ++ sql)

/-- `Connection._scramble()` from `connections.py`: dispatch on
`self.auth_plugin_name`; unknown plugins raise `NotImplementedError`. -/
def _scramble (auth_plugin_name : String) (password : Option (List Nat))
    (salt : List Nat) : Except PyErr (List Nat) :=
  if auth_plugin_name = "" ∨ auth_plugin_name = "mysql_native_password" then
    .ok (_mysql_native_password_scramble password salt)
  else if auth_plugin_name = "caching_sha2_password" then
    .ok (_caching_sha2_password_scramble password salt)
  else if auth_plugin_name = "mysql_clear_password" then
    .ok (password.getD [] ++ [0])
  else
    .error .notImplementedError

/-- `Connection._connect()` from `connections.py`: replace `self.socket` with
`SocketWrapper(self._get_socket(), self.compress)` — a freshly connected
socket on which no handshake or authentication has been performed
(`_initialize` is not called here). -/
def Connection._connect (_ : Conn) : Conn :=
  { socket := some { broken := false, handshaken := false } }

/-- `Connection.close()` from `connections.py`: if `self.socket is None`,
return; otherwise send the COM_QUIT frame (the send has no surrounding
`try`, so a transport error propagates and the two following statements —
`self.socket.close()` and `self.socket = None` — do not run), then close
and clear the socket. Returns the post-state and the raised error, if any. -/
def Connection.close (c : Conn) : Conn × Option PyErr :=
  match c.socket with
  | none => (c, none)
  | some s =>
    match send_packet s with
    | .error e => (c, some e)
    | .ok _ => ({ socket := none }, none)

/-- `Connection.closed` property from `connections.py`: `self.socket is None`. -/
def Connection.closed (c : Conn) : Bool :=
  c.socket.isNone

/-- What a `ping` call observably does. `okReply` means the COM_PING frame
was written and the server's reply packet is read and returned. -/
inductive PingOut where
  | okReply
  | raised (e : PyErr)
deriving DecidableEq, Repr

/-- `Connection.ping(False)` from `connections.py`: on an exception from
`_execute_command`, the error handler re-raises it (no reconnect). -/
def Connection.pingNoReconnect (c : Conn) : Conn × PingOut :=
  match _execute_command c.socket 0x0e [] with
  | .ok _ => (c, .okReply)
  | .error e => (c, .raised (errorhandler e))

/-- `Connection.ping(reconnect)` from `connections.py`: try COM_PING; on an
exception, if `reconnect` then `self._connect()` and `return self.ping(False)`
(the recursive call is unrolled here), else funnel the error through
`self.errorhandler`. -/
def Connection.ping (c : Conn) (reconnect : Bool) : Conn × PingOut :=
  match _execute_command c.socket 0x0e [] with
  | .ok _ => (c, .okReply)
  | .error e =>
    if reconnect then Connection.pingNoReconnect (Connection._connect c)
    else (c, .raised (errorhandler e))

/-- ASCII byte encoding of the fixed SQL texts the command methods send
(`str.encode` of an ASCII string under the connection encoding). -/
def encodeAscii (s : String) : List Nat :=
  s.toList.map Char.toNat

/-- `Connection.query(sql)` from `connections.py` up to the command write:
`_execute_command(COM_QUERY, sql)` with no surrounding `try`, so its
exception propagates unchanged. `none` means the command frame was sent. -/
def Connection.query (c : Conn) (sql : List Nat) : Option PyErr :=
  match _execute_command c.socket 0x03 sql with
  | .ok _ => none
  | .error e => some e

/-- `struct.pack('<I', n)`: 4 bytes little-endian. -/
def packUInt32LE (n : Nat) : List Nat :=
  [n % 256, n >>> 8 % 256, n >>> 16 % 256, n >>> 24 % 256]

/-- `Connection.kill(thread_id)` from `connections.py` up to the command
write: `_execute_command(COM_PROCESS_KILL, arg)` inside `try`, exceptions
re-raised through `self.errorhandler`. -/
def Connection.kill (c : Conn) (thread_id : Nat) : Option PyErr :=
  match _execute_command c.socket 0x0c (packUInt32LE thread_id) with
  | .ok _ => none
  | .error e => some (errorhandler e)

/-- `Connection.autocommit(value)` from `connections.py` up to the command
write: send `SET AUTOCOMMIT = 1/0`, exceptions through `self.errorhandler`. -/
def Connection.autocommit (c : Conn) (value : Bool) : Option PyErr :=
  let q := if value then "SET AUTOCOMMIT = 1" else "SET AUTOCOMMIT = 0"
  match _execute_command c.socket 0x03 (encodeAscii q) with
  | .ok _ => none
  | .error e => some (errorhandler e)

/-- `Connection.commit()` from `connections.py` up to the command write. -/
def Connection.commit (c : Conn) : Option PyErr :=
  match _execute_command c.socket 0x03 (encodeAscii "COMMIT") with
  | .ok _ => none
  | .error e => some (errorhandler e)

/-- `Connection.rollback()` from `connections.py` up to the command write. -/
def Connection.rollback (c : Conn) : Option PyErr :=
  match _execute_command c.socket 0x03 (encodeAscii "ROLLBACK") with
  | .ok _ => none
  | .error e => some (errorhandler e)

/-- `Connection.set_charset(charset)` from `connections.py` up to the command
write: only acts when `charset` is non-empty; exceptions through
`self.errorhandler`. The charset name is assumed already escaped to itself. -/
def Connection.set_charset (c : Conn) (charset : String) : Option PyErr :=
  if charset = "" then none
  else
    match _execute_command c.socket 0x03 (encodeAscii ("SET NAMES " ++ charset)) with
    | .ok _ => none
    | .error e => some (errorhandler e)

/-! ## Result reader (`cymysql/result.py`)

`cymysql/packet.py` (class `MysqlPacket`) is not among the verified sources;
its packet classification and its `read` cursor are modelled from the spec:
a packet is OK when its first byte is `0x00` and its length is at least 7,
EOF when its first byte is `0xFE` and its length is below 9, ERR when its
first byte is `0xFF` (surfaced as a raised server error by the packet
layer), and `read(1)` returns the first payload byte. A packet stream is a
`List (List Nat)`; reading from an exhausted stream blocks, modelled as the
`blockedRead` error. -/

/-- Modelled from the spec: `MysqlPacket.is_ok_packet()` — first byte `0x00`
and length at least 7. -/
def is_ok_packet (p : List Nat) : Bool :=
  p.headD 0xff == 0 && 7 ≤ p.length

/-- Modelled from the spec: `MysqlPacket.is_eof_packet()` — first byte
`0xFE` and length below 9. -/
def is_eof_packet (p : List Nat) : Bool :=
  p.headD 0 == 0xfe && p.length < 9

/-- Modelled from the spec: length-encoded integer decode (glossary:
"1, 3, 4, or 9 bytes depending on magnitude"): a first byte below `0xFB`
is the value itself; `0xFC` prefixes 2 bytes LE, `0xFD` 3 bytes LE,
`0xFE` 8 bytes LE. Returns the value and the remaining bytes. -/
def lenencInt : List Nat → Option (Nat × List Nat)
  | [] => none
  | b :: rest =>
    if b < 0xfb then some (b, rest)
    else if b = 0xfc then
      match rest with
      | x0 :: x1 :: r => some (x0 + 256 * x1, r)
      | _ => none
    else if b = 0xfd then
      match rest with
      | x0 :: x1 :: x2 :: r => some (x0 + 256 * x1 + 65536 * x2, r)
      | _ => none
    else if b = 0xfe then
      match rest with
      | x0 :: x1 :: x2 :: x3 :: x4 :: x5 :: x6 :: x7 :: r =>
        some (x0 + 256 * x1 + 65536 * x2 + 16777216 * x3 +
              4294967296 * x4 + 1099511627776 * x5 +
              281474976710656 * x6 + 72057594037927936 * x7, r)
      | _ => none
    else none

/-- `MySQLResult._get_descriptions()` from `result.py`: receive
`field_count` packets as column descriptors, then one more packet that is
asserted to be an EOF packet (`assert eof_packet.is_eof_packet()`, modelled
as `assertionError` when it fails). Returns the descriptor packets and the
rest of the stream. -/
def _get_descriptions : Nat → List (List Nat) →
    Except PyErr (List (List Nat) × List (List Nat))
  | 0, [] => .error .blockedRead
  | 0, eofp :: rest =>
    if is_eof_packet eofp then .ok ([], rest) else .error .assertionError
  | _ + 1, [] => .error .blockedRead
  | n + 1, p :: rest =>
    match _get_descriptions n rest with
    | .error e => .error e
    | .ok (fields, rem) => .ok (p :: fields, rem)

/-- `MySQLResult.read_rest_rowdata_packet()` from `result.py` (the
`has_result ∧ rest_rows = None` case): receive packets, collecting each as
a row, until one satisfies `is_eof_and_status` (the EOF test on short
`0xFE` packets); returns the rows and the remaining stream. -/
def read_rest_rowdata_packet : List (List Nat) →
    Except PyErr (List (List Nat) × List (List Nat))
  | [] => .error .blockedRead
  | p :: rest =>
    if is_eof_packet p then .ok ([], rest)
    else
      match read_rest_rowdata_packet rest with
      | .error e => .error e
      | .ok (rows, rem) => .ok (p :: rows, rem)

/-- Outcome of `MySQLResult.read_result()`: either the first packet was OK
(`has_result = False`), or a result set was read, recording the
`field_count` taken from the header packet, the column-descriptor packets,
the row packets, and the unconsumed remainder of the stream. -/
inductive ResultOutcome where
  | okPacket (payload : List Nat) (remaining : List (List Nat))
  | resultSet (field_count : Nat) (fields : List (List Nat))
      (rows : List (List Nat)) (remaining : List (List Nat))
deriving DecidableEq, Repr

/-- `MySQLResult.read_result()` from `result.py`, reading from a packet
stream: receive the first packet; if it is an OK packet, record it and stop
(`has_result = False`); otherwise `field_count = ord(first_packet.read(1))`
— the single first payload byte — then `_get_descriptions()` and
`read_rest_rowdata_packet()`. An ERR first packet (first byte `0xFF`) is
surfaced as a raised server error by the packet layer (modelled from the
spec; `cymysql/packet.py` is outside the verified sources), and `read(1)`
on an empty payload raises. -/
def read_result : List (List Nat) → Except PyErr ResultOutcome
  | [] => .error .blockedRead
  | p0 :: rest =>
    if p0.headD 0 = 0xff then .error .serverError
    else if is_ok_packet p0 then .ok (.okPacket p0 rest)
    else
      match p0 with
      | [] => .error .valueError
      | b :: _ =>
        match _get_descriptions b rest with
        | .error e => .error e
        | .ok (fields, rem) =>
          match read_rest_rowdata_packet rem with
          | .error e => .error e
          | .ok (rows, rem2) => .ok (.resultSet b fields rows rem2)

/-! ## `Connection.affected_rows` (`connections.py` / `result.py`) -/

/-- The instance attribute names a `MySQLResult` object carries: those bound
in `MySQLResult.__init__`, plus `first_packet` (bound in `read_result`) and
`fields` (bound in `_get_descriptions`). No method ever binds
`_affected_rows`. -/
def mysqlResultAttrs : List String :=
  ["connection", "affected_rows", "insert_id", "server_status",
   "warning_count", "message", "field_count", "description", "has_next",
   "has_result", "rest_rows", "rest_row_index", "first_packet", "fields"]

/-- `Connection.affected_rows()` from `connections.py`, parameterized by the
attribute names of the active result object: when `self._result` is truthy,
the body evaluates `self._result._affected_rows` as a bare expression —
`AttributeError` if the attribute does not exist, and otherwise the value
is discarded and the branch falls off the function, returning Python
`None` (`Except.ok none`); when no result is active it returns 0. -/
def Connection.affected_rows (attrs : List String) (resultActive : Bool) :
    Except PyErr (Option Nat) :=
  if resultActive then
    if attrs.contains "_affected_rows" then .ok none
    else .error .attributeError
  else .ok (some 0)

/-! ## Helper lemmas -/

instance {ε α : Type} [DecidableEq ε] [DecidableEq α] : DecidableEq (Except ε α)
  | .error e, .error f => decidable_of_iff (e = f) (by simp)
  | .error _, .ok _ => isFalse (by simp)
  | .ok _, .error _ => isFalse (by simp)
  | .ok x, .ok y => decidable_of_iff (x = y) (by simp)

theorem sha1_length (m : List Nat) : (sha1 m).length = 20 := by
  simp [sha1, be32]

theorem sha256_length (m : List Nat) : (sha256 m).length = 32 := by
  simp [sha256, be32]

theorem _xor_length (a b : List Nat) : (_xor a b).length = a.length := by
  simp [_xor]

theorem _xor_comm_of_length_eq (a b : List Nat) (h : a.length = b.length) :
    _xor a b = _xor b a := by
  unfold _xor
  simp only [h]
  apply List.map_congr_left
  intro i hi
  rw [List.mem_range] at hi
  rw [Nat.mod_eq_of_lt hi, Nat.xor_comm]

/-! ## Claims -/

/-- C1: for every non-empty password `p` and every salt of at least 20
bytes, `_mysql_native_password_scramble(p, salt)` equals
`SHA1(p) XOR SHA1(salt[:20] || SHA1(SHA1(p)))` and is 20 bytes long; for
`p` empty or `None` it returns the empty byte string. -/
theorem native_password_scramble_formula (p salt : List Nat)
    (hp : p ≠ []) ( _hs : 20 ≤ salt.length) :
    _mysql_native_password_scramble (some p) salt =
      _xor (sha1 p) (sha1 (salt.take 20 ++ sha1 (sha1 p)))
    ∧ (_mysql_native_password_scramble (some p) salt).length = 20
    ∧ _mysql_native_password_scramble none salt = []
    ∧ _mysql_native_password_scramble (some []) salt = [] := by
  have hlen : ¬ p.length = 0 := by simpa using hp
  have hcode : _mysql_native_password_scramble (some p) salt
      = _xor (sha1 (salt.take 20 ++ sha1 (sha1 p))) (sha1 p) := by
    simp [_mysql_native_password_scramble, hlen, SCRAMBLE_LENGTH]
  refine ⟨?_, ?_, rfl, rfl⟩
  · rw [hcode]
    exact (_xor_comm_of_length_eq _ _ (by rw [sha1_length, sha1_length])).symm
  · rw [hcode, _xor_length, sha1_length]

/-- Witness for C1 at `p = [1]`, `salt = 20 zero bytes`. -/
theorem native_password_scramble_formula_witness :
    (([1] : List Nat) ≠ []) ∧ 20 ≤ (List.replicate 20 (0 : Nat)).length ∧
    (_mysql_native_password_scramble (some [1]) (List.replicate 20 0) =
       _xor (sha1 [1])
         (sha1 ((List.replicate 20 (0 : Nat)).take 20 ++ sha1 (sha1 [1])))
     ∧ (_mysql_native_password_scramble (some [1]) (List.replicate 20 0)).length = 20
     ∧ _mysql_native_password_scramble none (List.replicate 20 0) = []
     ∧ _mysql_native_password_scramble (some []) (List.replicate 20 0) = []) :=
  ⟨by decide, by simp,
   native_password_scramble_formula [1] (List.replicate 20 0) (by decide) (by simp)⟩

/-- C2: for every non-empty password `p` and every nonce of at least 20
bytes, `_caching_sha2_password_scramble(p, nonce)` equals
`SHA256(p) XOR SHA256(SHA256(SHA256(p)) || nonce[:20])` and is 32 bytes
long; for `p` empty or `None` it returns the empty byte string — and this
is the scramble `_scramble` computes after an AuthSwitchRequest to
`caching_sha2_password`. -/
theorem caching_sha2_scramble_formula (p nonce : List Nat)
    (hp : p ≠ []) ( _hs : 20 ≤ nonce.length) :
    _caching_sha2_password_scramble (some p) nonce =
      _xor (sha256 p) (sha256 (sha256 (sha256 p) ++ nonce.take 20))
    ∧ (_caching_sha2_password_scramble (some p) nonce).length = 32
    ∧ _caching_sha2_password_scramble none nonce = []
    ∧ _caching_sha2_password_scramble (some []) nonce = []
    ∧ _scramble "caching_sha2_password" (some p) nonce =
        .ok (_caching_sha2_password_scramble (some p) nonce) := by
  have hlen : ¬ p.length = 0 := by simpa using hp
  have hcode : _caching_sha2_password_scramble (some p) nonce
      = _xor (sha256 p) (sha256 (sha256 (sha256 p) ++ nonce.take 20)) := by
    simp [_caching_sha2_password_scramble, hlen, SCRAMBLE_LENGTH]
  refine ⟨hcode, ?_, rfl, rfl, ?_⟩
  · rw [hcode, _xor_length, sha256_length]
  · unfold _scramble
    rw [if_neg (by decide), if_pos rfl]

/-- Witness for C2 at `p = [1]`, `nonce = 20 zero bytes`. -/
theorem caching_sha2_scramble_formula_witness :
    (([1] : List Nat) ≠ []) ∧ 20 ≤ (List.replicate 20 (0 : Nat)).length ∧
    (_caching_sha2_password_scramble (some [1]) (List.replicate 20 0) =
       _xor (sha256 [1])
         (sha256 (sha256 (sha256 [1]) ++ (List.replicate 20 (0 : Nat)).take 20))
     ∧ (_caching_sha2_password_scramble (some [1]) (List.replicate 20 0)).length = 32
     ∧ _caching_sha2_password_scramble none (List.replicate 20 0) = []
     ∧ _caching_sha2_password_scramble (some []) (List.replicate 20 0) = []
     ∧ _scramble "caching_sha2_password" (some [1]) (List.replicate 20 0) =
         .ok (_caching_sha2_password_scramble (some [1]) (List.replicate 20 0))) :=
  ⟨by decide, by simp,
   caching_sha2_scramble_formula [1] (List.replicate 20 0) (by decide) (by simp)⟩

/-- C3: `_xor(data, salt)` has the length of `data` and its byte `i` is
`data[i] XOR salt[i mod len(salt)]` for every `i`, i.e. the salt is
repeated cyclically. -/
theorem xor_cyclic_repetition (data salt : List Nat) ( _hs : salt ≠ []) :
    (_xor data salt).length = data.length ∧
    ∀ i, i < data.length →
      (_xor data salt).getD i 0 =
        (data.getD i 0) ^^^ (salt.getD (i % salt.length) 0) := by
  refine ⟨_xor_length _ _, ?_⟩
  intro i hi
  unfold _xor
  rw [List.getD_eq_getElem?_getD, List.getElem?_map, List.getElem?_range hi]
  rfl

/-- Witness for C3 at `data = [5, 6, 7]`, `salt = [3, 12]`. -/
theorem xor_cyclic_repetition_witness :
    (([3, 12] : List Nat) ≠ []) ∧
    ((_xor [5, 6, 7] [3, 12]).length = ([5, 6, 7] : List Nat).length ∧
     ∀ i, i < ([5, 6, 7] : List Nat).length →
       (_xor [5, 6, 7] [3, 12]).getD i 0 =
         (([5, 6, 7] : List Nat).getD i 0) ^^^
           (([3, 12] : List Nat).getD (i % ([3, 12] : List Nat).length) 0)) :=
  ⟨by decide, xor_cyclic_repetition [5, 6, 7] [3, 12] (by decide)⟩

/-- C4 counterexample: for the plugin name `sha256_password` (none of the
supported ones), `_scramble` fails with `NotImplementedError`, not with
`NotSupportedError` as the claim states. -/
theorem scramble_unknown_plugin_counterexample :
    _scramble "sha256_password" (some [1]) (List.replicate 20 1) =
      .error .notImplementedError ∧
    _scramble "sha256_password" (some [1]) (List.replicate 20 1) ≠
      .error .notSupportedError := by
  have h : _scramble "sha256_password" (some [1]) (List.replicate 20 1) =
      .error .notImplementedError := by
    unfold _scramble
    rw [if_neg (by decide), if_neg (by decide), if_neg (by decide)]
  exact ⟨h, by rw [h]; simp⟩

/-- C4 amended: when the authentication plugin in effect is none of
`mysql_native_password` (or the empty-string default),
`caching_sha2_password`, and `mysql_clear_password`, computing the auth
response fails with `NotImplementedError` (a Python builtin, not the
DB-API `NotSupportedError`). -/
theorem scramble_unknown_plugin_raises (name : String)
    (password : Option (List Nat)) (salt : List Nat)
    (h : name ∉ ["", "mysql_native_password", "caching_sha2_password",
                 "mysql_clear_password"]) :
    _scramble name password salt = .error .notImplementedError := by
  unfold _scramble
  have h1 : ¬ (name = "" ∨ name = "mysql_native_password") := by
    rintro (hc | hc) <;> simp [hc] at h
  have h2 : ¬ name = "caching_sha2_password" := by
    intro hc; simp [hc] at h
  have h3 : ¬ name = "mysql_clear_password" := by
    intro hc; simp [hc] at h
  rw [if_neg h1, if_neg h2, if_neg h3]

/-- Witness for the amended C4 at plugin name `sha256_password`. -/
theorem scramble_unknown_plugin_raises_witness :
    ("sha256_password" ∉ ["", "mysql_native_password", "caching_sha2_password",
                          "mysql_clear_password"]) ∧
    _scramble "sha256_password" (some [2]) [] = .error .notImplementedError :=
  ⟨by decide, scramble_unknown_plugin_raises "sha256_password" (some [2]) [] (by decide)⟩

theorem exec_command_too_long (s : Sock) (command : Nat) (sql : List Nat)
    (h : sql.length + 1 > 0xffffff) :
    _execute_command (some s) command sql = .error .valueError := by
  unfold _execute_command
  exact if_pos h

theorem exec_command_accept (command : Nat) (sql : List Nat)
    (h : ¬ sql.length + 1 > 0xffffff) :
    _execute_command (some ⟨false, true⟩) command sql =
      .ok (packInt32LE (sql.length + 1) ++ [command % 256] ++ sql) := by
  unfold _execute_command
  exact if_neg h

/-- C5 counterexample: a SQL body of exactly `0xFFFFFF` bytes is not
accepted — `_execute_command` on a working socket raises `ValueError`
(`len(sql) + 1 > 0xffffff`) before anything is written. -/
theorem exec_command_max_size_counterexample :
    _execute_command (some ⟨false, true⟩) 0x03 (List.replicate 0xffffff 0) =
      .error .valueError := by
  apply exec_command_too_long
  rw [List.length_replicate]
  omega

/-- C5 amended: `_execute_command` on a working socket rejects the payload
locally (raising `ValueError` before any bytes reach the transport) exactly
when the SQL byte length exceeds `0xFFFFFF - 1`; any shorter body —
including one of exactly `0xFFFFFF - 1` bytes, the maximum — is accepted
and handed to the transport as `pack('<i', len+1) || command || sql`
(a body of exactly `0xFFFFFF` bytes is rejected, not split into frames). -/
theorem exec_command_reject_iff (command : Nat) (sql : List Nat) :
    (_execute_command (some ⟨false, true⟩) command sql = .error .valueError ↔
      0xffffff - 1 < sql.length)
    ∧ (sql.length ≤ 0xffffff - 1 →
        _execute_command (some ⟨false, true⟩) command sql =
          .ok (packInt32LE (sql.length + 1) ++ [command % 256] ++ sql)) := by
  refine ⟨⟨?_, ?_⟩, ?_⟩
  · intro hv
    by_contra hnot
    push_neg at hnot
    rw [exec_command_accept command sql (by omega)] at hv
    exact absurd hv (by simp)
  · intro hlt
    exact exec_command_too_long ⟨false, true⟩ command sql (by omega)
  · intro hle
    exact exec_command_accept command sql (by omega)

/-- Witness for the amended C5 at `sql = [7]`. -/
theorem exec_command_reject_iff_witness :
    ([7] : List Nat).length ≤ 0xffffff - 1 ∧
    _execute_command (some ⟨false, true⟩) 0x03 [7] =
      .ok (packInt32LE (([7] : List Nat).length + 1) ++ [0x03 % 256] ++ [7]) :=
  ⟨by norm_num, (exec_command_reject_iff 0x03 [7]).2 (by norm_num)⟩

/-- C6: on a connection whose transport is broken (`send_packet` fails),
`ping(reconnect=True)` calls `_connect()` — which only opens a fresh
socket, with `handshaken = false` because `_initialize` is never invoked —
and retries COM_PING exactly once on that un-handshaken socket; no
re-handshake or re-authentication happens, contradicting the claim. With
`reconnect=False` the transport failure surfaces as `OperationalError`. -/
theorem ping_reconnect_no_rehandshake :
    Connection.ping ⟨some ⟨true, true⟩⟩ true =
      (⟨some ⟨false, false⟩⟩, .okReply)
    ∧ ((Connection.ping ⟨some ⟨true, true⟩⟩ true).1.socket.map Sock.handshaken
        = some false)
    ∧ Connection.ping ⟨some ⟨true, true⟩⟩ false =
      (⟨some ⟨true, true⟩⟩, .raised .operationalError) := by
  decide

/-- C7 counterexample: on a connection whose transport is broken, `close`
surfaces the `OperationalError` from the COM_QUIT send (it is not
swallowed), and the socket is not discarded (`self.socket` is still set). -/
theorem close_error_not_swallowed_counterexample :
    (Connection.close ⟨some ⟨true, true⟩⟩).2 = some .operationalError
    ∧ (Connection.close ⟨some ⟨true, true⟩⟩).1.socket ≠ none := by
  decide

/-- C7 amended: `close` sends COM_QUIT and then closes and clears the
socket when the send succeeds; if a transport error occurs while sending
COM_QUIT, the error propagates (it is not swallowed) and the socket is not
discarded. `close` on an already-closed connection is a no-op. -/
theorem close_behavior (s : Sock) :
    (s.broken = false → Connection.close ⟨some s⟩ = (⟨none⟩, none))
    ∧ (s.broken = true →
        Connection.close ⟨some s⟩ = (⟨some s⟩, some .operationalError))
    ∧ Connection.close ⟨none⟩ = ((⟨none⟩ : Conn), none) := by
  refine ⟨?_, ?_, rfl⟩
  · intro h; simp [Connection.close, send_packet, h]
  · intro h; simp [Connection.close, send_packet, h]

/-- Witness for the amended C7 at a working socket and at a broken one. -/
theorem close_behavior_witness :
    ((⟨false, true⟩ : Sock).broken = false ∧
      Connection.close ⟨some ⟨false, true⟩⟩ = (⟨none⟩, none)) ∧
    ((⟨true, false⟩ : Sock).broken = true ∧
      Connection.close ⟨some ⟨true, false⟩⟩ =
        (⟨some ⟨true, false⟩⟩, some .operationalError)) :=
  ⟨⟨rfl, (close_behavior ⟨false, true⟩).1 rfl⟩,
   ⟨rfl, (close_behavior ⟨true, false⟩).2.1 rfl⟩⟩

/-- C8 counterexample: on a closed connection (`closed = true`), `ping`
with its default `reconnect=True` does not fail with `InterfaceError` —
it reconnects the socket and retries, replying normally. -/
theorem closed_ping_reconnect_counterexample :
    Connection.closed ⟨none⟩ = true
    ∧ Connection.ping ⟨none⟩ true = (⟨some ⟨false, false⟩⟩, .okReply)
    ∧ (Connection.ping ⟨none⟩ true).2 ≠ .raised .interfaceError := by
  decide

/-- C8 amended: after `close()` returns normally the connection reports
closed, and on a closed connection `query`, `kill`, `autocommit`, `commit`,
`rollback`, `set_charset` (with a non-empty charset) and
`ping(reconnect=False)` all fail with `InterfaceError`; `ping` with its
default `reconnect=True` instead reconnects the socket and retries rather
than raising `InterfaceError`. -/
theorem closed_commands_raise (c c' : Conn) (sql : List Nat) (tid : Nat)
    (charset : String) (hcs : charset ≠ "")
    (h : Connection.closed c = true)
    (hclose : (Connection.close c').2 = none) :
    Connection.query c sql = some .interfaceError
    ∧ Connection.kill c tid = some .interfaceError
    ∧ Connection.autocommit c true = some .interfaceError
    ∧ Connection.autocommit c false = some .interfaceError
    ∧ Connection.commit c = some .interfaceError
    ∧ Connection.rollback c = some .interfaceError
    ∧ Connection.set_charset c charset = some .interfaceError
    ∧ (Connection.ping c false).2 = .raised .interfaceError
    ∧ (Connection.ping c true).2 = .okReply
    ∧ Connection.closed (Connection.close c').1 = true := by
  cases c with
  | mk socket =>
    have hn : socket = none := by
      simpa [Connection.closed, Option.isNone_iff_eq_none] using h
    subst hn
    refine ⟨rfl, rfl, rfl, rfl, rfl, rfl, ?_, rfl, rfl, ?_⟩
    · unfold Connection.set_charset
      rw [if_neg hcs]
      rfl
    · cases c' with
      | mk s' =>
        rcases s' with _ | sk
        · rfl
        · by_cases hb : sk.broken = true
          · simp [Connection.close, send_packet, hb] at hclose
          · simp only [Bool.not_eq_true] at hb
            simp [Connection.close, send_packet, hb, Connection.closed]

theorem get_descriptions_append (cols : List (List Nat)) (eofp : List Nat)
    (rest : List (List Nat)) (heof : is_eof_packet eofp = true) :
    _get_descriptions cols.length (cols ++ eofp :: rest) = .ok (cols, rest) := by
  induction cols with
  | nil => simp [_get_descriptions, heof]
  | cons p cols ih =>
    have hstep : _get_descriptions (p :: cols).length ((p :: cols) ++ eofp :: rest)
        = match _get_descriptions cols.length (cols ++ eofp :: rest) with
          | .error e => .error e
          | .ok (fields, rem) => .ok (p :: fields, rem) := rfl
    rw [hstep, ih]

theorem read_rest_rowdata_append (rows : List (List Nat)) (eofp : List Nat)
    (rem : List (List Nat)) (hrows : ∀ r ∈ rows, is_eof_packet r = false)
    (heof : is_eof_packet eofp = true) :
    read_rest_rowdata_packet (rows ++ eofp :: rem) = .ok (rows, rem) := by
  induction rows with
  | nil => simp [read_rest_rowdata_packet, heof]
  | cons p rows ih =>
    have hp : is_eof_packet p = false := hrows p (by simp)
    have ih' := ih (fun r hr => hrows r (by simp [hr]))
    have hstep : read_rest_rowdata_packet ((p :: rows) ++ eofp :: rem)
        = if is_eof_packet p then .ok ([], rows ++ eofp :: rem)
          else match read_rest_rowdata_packet (rows ++ eofp :: rem) with
            | .error e => .error e
            | .ok (rs, rm) => .ok (p :: rs, rm) := rfl
    rw [hstep, hp, ih']
    simp

theorem read_result_cons_spec (b : Nat) (p0tail : List Nat)
    (cols rows : List (List Nat)) (eofp eofp2 : List Nat)
    (rem : List (List Nat))
    (h0 : is_ok_packet (b :: p0tail) = false)
    (h1 : b ≠ 0xff)
    (h2 : cols.length = b)
    (h3 : is_eof_packet eofp = true)
    (h4 : ∀ r ∈ rows, is_eof_packet r = false)
    (h5 : is_eof_packet eofp2 = true) :
    read_result ((b :: p0tail) :: (cols ++ eofp :: (rows ++ eofp2 :: rem)))
      = .ok (.resultSet b cols rows rem) := by
  have hstep : read_result ((b :: p0tail) :: (cols ++ eofp :: (rows ++ eofp2 :: rem)))
      = if (b :: p0tail).headD 0 = 0xff then .error .serverError
        else if is_ok_packet (b :: p0tail) then
          .ok (.okPacket (b :: p0tail) (cols ++ eofp :: (rows ++ eofp2 :: rem)))
        else
          match _get_descriptions b (cols ++ eofp :: (rows ++ eofp2 :: rem)) with
          | .error e => .error e
          | .ok (fields, rm) =>
            match read_rest_rowdata_packet rm with
            | .error e => .error e
            | .ok (rws, rm2) => .ok (.resultSet b fields rws rm2) := rfl
  rw [hstep, List.headD_cons, if_neg h1,
    if_neg (by simp [h0] : ¬ is_ok_packet (b :: p0tail) = true), ← h2,
    get_descriptions_append cols eofp _ h3]
  show (match read_rest_rowdata_packet (rows ++ eofp2 :: rem) with
        | Except.error e => Except.error e
        | Except.ok (rws, rm2) =>
          Except.ok (ResultOutcome.resultSet cols.length cols rws rm2))
      = Except.ok (ResultOutcome.resultSet cols.length cols rows rem)
  rw [read_rest_rowdata_append rows eofp2 rem h4 h5]

/-- C9 amended: when the first packet after a QUERY is neither OK nor ERR,
the result reader takes its first payload byte — a single byte, the
1-byte case of the length-encoded-integer format only — as `field_count`,
and then reads exactly `field_count` column-definition packets followed by
one EOF packet (and then the row packets up to the terminating EOF). -/
theorem read_result_field_count (b : Nat) (p0tail : List Nat)
    (cols rows : List (List Nat)) (eofp eofp2 : List Nat)
    (rem : List (List Nat))
    (h0 : is_ok_packet (b :: p0tail) = false)
    (h1 : b ≠ 0xff)
    (h2 : cols.length = b)
    (h3 : is_eof_packet eofp = true)
    (h4 : ∀ r ∈ rows, is_eof_packet r = false)
    (h5 : is_eof_packet eofp2 = true) :
    read_result ((b :: p0tail) :: (cols ++ eofp :: (rows ++ eofp2 :: rem)))
      = .ok (.resultSet b cols rows rem) :=
  read_result_cons_spec b p0tail cols rows eofp eofp2 rem h0 h1 h2 h3 h4 h5

/-- Witness for the amended C9: header byte 2, two column packets, one
EOF, one row, terminating EOF, one packet left over. -/
theorem read_result_field_count_witness :
    is_ok_packet [2, 9] = false ∧ (2 : Nat) ≠ 0xff ∧
    ([[5], [6]] : List (List Nat)).length = 2 ∧
    is_eof_packet [0xfe, 0, 0, 0, 0] = true ∧
    (∀ r ∈ ([[7, 7]] : List (List Nat)), is_eof_packet r = false) ∧
    read_result [[2, 9], [5], [6], [0xfe, 0, 0, 0, 0], [7, 7],
                 [0xfe, 0, 0, 0, 0], [1]]
      = .ok (.resultSet 2 [[5], [6]] [[7, 7]] [[1]]) :=
  ⟨by decide, by decide, by decide, by decide, by decide,
   read_result_field_count 2 [9] [[5], [6]] [[7, 7]] [0xfe, 0, 0, 0, 0]
     [0xfe, 0, 0, 0, 0] [[1]] (by decide) (by decide) (by decide) (by decide)
     (by decide) (by decide)⟩

/-- C9 counterexample: a result-set header whose leading bytes are the
3-byte length-encoded integer `0xFC 0x2C 0x01` (value 300). The claim says
the reader decodes `field_count = 300`; the code takes only the first byte,
`0xFC = 252`: on a stream with 252 column packets it succeeds with
`field_count = 252`, never decoding the 300. -/
theorem read_result_lenenc_counterexample :
    read_result ((0xfc :: [0x2c, 0x01]) ::
        (List.replicate 252 [1] ++ [0xfe, 0, 0, 0, 0] ::
          ([] ++ [0xfe, 0, 0, 0, 0] :: [])))
      = .ok (.resultSet 0xfc (List.replicate 252 [1]) [] [])
    ∧ lenencInt [0xfc, 0x2c, 0x01] = some (300, [])
    ∧ (0xfc : Nat) ≠ 300 :=
  ⟨read_result_cons_spec 0xfc [0x2c, 0x01] (List.replicate 252 [1]) []
     [0xfe, 0, 0, 0, 0] [0xfe, 0, 0, 0, 0] [] (by decide) (by decide)
     (by rw [List.length_replicate]) (by decide)
     (fun r hr => absurd hr (List.not_mem_nil r)) (by decide),
   by decide, by decide⟩

/-- C10: `Connection.affected_rows()` returns 0 when no result is active;
with an active result it evaluates `self._result._affected_rows`, an
attribute `MySQLResult` never defines (the defined attribute is
`affected_rows`), so it raises `AttributeError` — and even if the
attribute existed, the branch has no `return` statement, so the call would
yield Python `None` rather than the row count. -/
theorem affected_rows_attribute_error :
    Connection.affected_rows mysqlResultAttrs true = .error .attributeError
    ∧ Connection.affected_rows mysqlResultAttrs false = .ok (some 0)
    ∧ mysqlResultAttrs.contains "_affected_rows" = false
    ∧ mysqlResultAttrs.contains "affected_rows" = true
    ∧ Connection.affected_rows ("_affected_rows" :: mysqlResultAttrs) true
        = .ok none := by
  decide

/-- Witness for the amended C8 on a closed connection. -/
theorem closed_commands_raise_witness :
    ("utf8mb4" ≠ "") ∧ Connection.closed ⟨none⟩ = true ∧
    (Connection.close ⟨some ⟨false, true⟩⟩).2 = none ∧
    (Connection.query ⟨none⟩ [] = some .interfaceError
     ∧ Connection.kill ⟨none⟩ 0 = some .interfaceError
     ∧ Connection.autocommit ⟨none⟩ true = some .interfaceError
     ∧ Connection.autocommit ⟨none⟩ false = some .interfaceError
     ∧ Connection.commit ⟨none⟩ = some .interfaceError
     ∧ Connection.rollback ⟨none⟩ = some .interfaceError
     ∧ Connection.set_charset ⟨none⟩ "utf8mb4" = some .interfaceError
     ∧ (Connection.ping ⟨none⟩ false).2 = .raised .interfaceError
     ∧ (Connection.ping ⟨none⟩ true).2 = .okReply
     ∧ Connection.closed (Connection.close ⟨some ⟨false, true⟩⟩).1 = true) :=
  ⟨by decide, rfl, rfl,
   closed_commands_raise ⟨none⟩ ⟨some ⟨false, true⟩⟩ [] 0 "utf8mb4"
     (by decide) rfl rfl⟩
